import Mathlib

/-!
Shallow embedding of the SearchLift360 conversational-commerce backend
(`backend/chat_handler.py` and `backend/main.py`).

The core of the program is the LLM tool-calling loop
`generate_response_with_gemini`: it sends the user prompt to the model,
and while the model's reply starts with a function-call part it executes
the requested tool, sends a function-response message back to the model,
and asks for the next reply; when the reply no longer starts with a
function call it extracts the final text (or a fixed fallback).

The LLM endpoint is modelled as an oracle: the list of contents the model
will reply with, consumed one per `send_message`. An exhausted oracle
models `chat.send_message` raising (endpoint unreachable, malformed or
candidate-less reply): the one error channel of the embedded turn, caught
at the outer boundary of `generate_response_with_gemini`.

The Python loop has no iteration cap, so the Lean loop takes a fuel
argument; the `outOfFuel` outcome means "the turn is still running after
`fuel` tool round-trips" and models divergence, not an error.
-/

namespace SearchLift

/-- JSON-like values, as produced by `response.json()` and consumed by the
Gemini function-response protocol. -/
inductive JSON where
  | null
  | str (s : String)
  | num (n : Int)
  | bool (b : Bool)
  | arr (items : List JSON)
  | obj (fields : List (String × JSON))

/-- A tool argument mapping, as in `tool_args = {key: value for ...}`
(`chat_handler.py` line 57). -/
abbrev Args := List (String × JSON)

/-- A Gemini `function_call` proto: tool name plus argument mapping. -/
structure FunctionCall where
  name : String
  args : Args

/-- One part of a Gemini reply content. `function_call := none` models a
falsy (absent/empty) `part.function_call`; `text := ""` models a falsy
`part.text`, exactly the truthiness tests of `chat_handler.py`
lines 47-52 and 102-107. -/
structure Part where
  function_call : Option FunctionCall
  text : String

/-- A Gemini reply content: `response.candidates[0].content`. -/
structure Content where
  parts : List Part

/-- The function-response message the driver sends back to the model:
`genai.protos.FunctionResponse(name=..., response=...)`
(`chat_handler.py` lines 76-79 and 92-95). -/
structure ToolResponseMsg where
  name : String
  response : JSON

/-- A tool executor: `(tool name, args) -> result`, where `Except.error e`
models the executor raising an exception with message `e`. -/
abbrev Executor := String → Args → Except String JSON

/-- Source `chat_handler.py` lines 70-73: a raw `list` result is wrapped as
`{"results": <list>}` before being sent to the model; anything else is
passed through unchanged. -/
def wrapListResult : JSON → JSON
  | JSON.arr items => JSON.obj [("results", JSON.arr items)]
  | j => j

/-- Source `chat_handler.py` line 94: the error payload sent to the model when
tool execution raised with message `e`. -/
def errorPayload (e : String) : JSON :=
  JSON.obj [("error", JSON.str ("Failed to execute tool: " ++ e))]

/-- The single function-response message produced by one iteration of the
loop body (`chat_handler.py` lines 62-99): the success payload with lists
wrapped, or the error payload when the executor raised. -/
def execMsg (exec : Executor) (fc : FunctionCall) : ToolResponseMsg :=
  match exec fc.name fc.args with
  | Except.ok data => { name := fc.name, response := wrapListResult data }
  | Except.error e => { name := fc.name, response := errorPayload e }

/-- The loop guard of `chat_handler.py` lines 47-52: the reply continues
the loop iff it has parts and its FIRST part carries a (truthy)
`function_call`; later parts are never inspected. -/
def isToolCall (c : Content) : Option FunctionCall :=
  match c.parts with
  | [] => none
  | p :: _ => p.function_call

/-- Outcome of the tool-calling loop. `finished` carries the reply that
ended the loop and the trace of function-response messages sent;
`modelError` models `chat.send_message` (or candidate access) raising
mid-loop; `outOfFuel` means the loop is still running after `fuel`
round-trips (the Python loop has no cap). -/
inductive LoopOutcome where
  | finished (final : Content) (sent : List ToolResponseMsg)
  | modelError (sent : List ToolResponseMsg)
  | outOfFuel (sent : List ToolResponseMsg)

/-- The `while` loop of `chat_handler.py` lines 47-99. `replies` is the
oracle of the model's future replies, `current` the reply being
inspected, `sent` the function-response messages sent to the model so
far. Each iteration handles exactly the first part's function call,
sends exactly one function-response message, and consumes exactly one
further model reply. -/
def driverLoop (exec : Executor) : Nat → List Content → Content →
    List ToolResponseMsg → LoopOutcome
  | 0, _, current, sent =>
    match isToolCall current with
    | none => LoopOutcome.finished current sent
    | some _ => LoopOutcome.outOfFuel sent
  | fuel + 1, replies, current, sent =>
    match isToolCall current with
    | none => LoopOutcome.finished current sent
    | some fc =>
      match replies with
      | [] => LoopOutcome.modelError (sent ++ [execMsg exec fc])
      | r :: rest => driverLoop exec fuel rest r (sent ++ [execMsg exec fc])

/-- Source `chat_handler.py` line 111: the fixed fallback answer. -/
def fallbackText : String :=
  "I have processed your request. Is there anything else I can help with?"

/-- Source `chat_handler.py` line 116: the fixed generic apology returned by the
outer exception handler. -/
def apologyText : String :=
  "I\x27m sorry, but I encountered an error while trying to process your request. Please try again later."

/-- Source `chat_handler.py` lines 101-111: after the loop, return the first
part's text if the final reply has parts and that text is non-empty,
else the fixed fallback. -/
def finalTextOf (c : Content) : String :=
  match c.parts with
  | [] => fallbackText
  | p :: _ => if p.text = "" then fallbackText else p.text

/-- The whole turn of `generate_response_with_gemini`, abstracted over the
executor (`run_turn` of the specification). The oracle's head is the
model's reply to the initial prompt; an empty oracle models the very
first `send_message` raising. `none` is returned only when the loop is
still running after `fuel` round-trips (the Python code would still be
looping); every completed turn returns a string, never an exception. -/
def run_turn (exec : Executor) (fuel : Nat) (oracle : List Content) : Option String :=
  match oracle with
  | [] => some apologyText
  | first :: rest =>
    match driverLoop exec fuel rest first [] with
    | LoopOutcome.finished final _ => some (finalTextOf final)
    | LoopOutcome.modelError _ => some apologyText
    | LoopOutcome.outOfFuel _ => none

/-- A FastMCP tool object: `fn := none` models `tool.fn` missing or not
callable (`hasattr(tool, 'fn') and callable(tool.fn)` false); the
function itself may raise (`Except.error`). -/
structure MCPTool where
  fn : Option (Args → Except String JSON)

/-- A FastMCP instance: `get_tool` may raise (unknown tool name). -/
structure MCPInstance where
  get_tool : String → Except String MCPTool

/-- Source `chat_handler.py` lines 119-148, `execute_mcp_tool`: look the tool up
and call it; ANY exception (get_tool raising, tool not callable, tool
function raising) is caught and the invocation falls back to
`execute_local_tool`. The Python `if tool_args: fn(**tool_args) else
fn()` distinction is argument plumbing with identical semantics here. -/
def execute_mcp_tool (inst : MCPInstance) (localExec : Executor)
    (tool_name : String) (tool_args : Args) : Except String JSON :=
  match inst.get_tool tool_name with
  | Except.error _ => localExec tool_name tool_args
  | Except.ok tool =>
    match tool.fn with
    | none => localExec tool_name tool_args
    | some f =>
      match f tool_args with
      | Except.ok r => Except.ok r
      | Except.error _ => localExec tool_name tool_args

/-- An HTTP GET request against the local FastAPI server: target URL and
query parameters. -/
structure HttpRequest where
  url : String
  params : Args

/-- Source `chat_handler.py` line 162. -/
def base_url : String := "http://localhost:8001"

/-- Source `chat_handler.py` lines 151-178, `execute_local_tool`: the
remote-proxy strategy. `http` models `client.get` followed by
`raise_for_status()` and `.json()`; `Except.error` models any of those
raising (connection failure, non-2xx status, bad JSON). -/
def execute_local_tool (http : HttpRequest → Except String JSON)
    (tool_name : String) (tool_args : Args) : Except String JSON :=
  if tool_name = "get_categories_tool" then
    http { url := base_url ++ "/categories", params := [] }
  else if tool_name = "get_products_tool" then
    http { url := base_url ++ "/products", params := [] }
  else if tool_name = "search_products_tool" then
    http { url := base_url ++ "/products/search",
           params := [("searchTerm", (tool_args.lookup "searchTerm").getD (JSON.str ""))] }
  else if tool_name = "search_hotels_tool" then
    http { url := base_url ++ "/hotels/search", params := tool_args }
  else
    Except.error ("Unknown tool: " ++ tool_name)

/-- Source `chat_handler.py` lines 62-68: per tool call the driver dispatches to
`execute_mcp_tool` when an MCP instance was supplied, else to
`execute_local_tool` (there abstracted as `localExec`). -/
def dispatch_tool (mcp_instance : Option MCPInstance) (localExec : Executor)
    (tool_name : String) (tool_args : Args) : Except String JSON :=
  match mcp_instance with
  | some inst => execute_mcp_tool inst localExec tool_name tool_args
  | none => localExec tool_name tool_args

/-- Function `generate_response_with_gemini` with its executor wired up as in the
source: MCP dispatch when `mcp_instance` is given, direct HTTP calls
otherwise. -/
def generate_response_with_gemini (mcp_instance : Option MCPInstance)
    (http : HttpRequest → Except String JSON) (fuel : Nat)
    (oracle : List Content) : Option String :=
  run_turn (dispatch_tool mcp_instance (execute_local_tool http)) fuel oracle

/-- Outcome of the `/chat` endpoint: an `HTTPException`, a successful
`{"response": <text>}` body, or (fuel artifact) a turn still running. -/
inductive ChatOutcome where
  | httpError (status : Nat) (detail : String)
  | chatResponse (text : String)
  | running

/-- Source `main.py` lines 190-273, `chat_with_agent`: reject an empty prompt
with HTTP 400 before anything else runs, otherwise run the driver with
`mcp_instance=None` (direct HTTP calls) and wrap its text as
`{"response": ...}`. The `except` at `main.py` line 274 is unreachable
for the chat path because `generate_response_with_gemini` catches all of
its own exceptions and returns a string. -/
def chat_with_agent (http : HttpRequest → Except String JSON) (fuel : Nat)
    (oracle : List Content) (prompt : String) : ChatOutcome :=
  if prompt = "" then ChatOutcome.httpError 400 "Prompt cannot be empty."
  else
    match generate_response_with_gemini none http fuel oracle with
    | some t => ChatOutcome.chatResponse t
    | none => ChatOutcome.running


/-! ## Concrete fixtures used by witnesses and counterexamples -/

/-- An executor that always succeeds with `null`. -/
def execNull : Executor := fun _ _ => Except.ok JSON.null

/-- An executor that always raises with message `"boom"`. -/
def execFail : Executor := fun _ _ => Except.error "boom"

/-- An executor that returns a raw list (as `/products/search` does). -/
def execList : Executor := fun _ _ => Except.ok (JSON.arr [JSON.str "Belt"])

/-- A concrete tool invocation request decided by the model. -/
def tcFC : FunctionCall :=
  { name := "search_products_tool", args := [("searchTerm", JSON.str "shoes")] }

/-- A reply part carrying a function call. -/
def tcPart : Part := { function_call := some tcFC, text := "" }

/-- A model reply requesting a tool call. -/
def tcContent : Content := { parts := [tcPart] }

/-- A model reply with plain final text. -/
def textContent : Content := { parts := [{ function_call := none, text := "done" }] }

/-- A model reply with no parts at all. -/
def emptyContent : Content := { parts := [] }

/-- A part with no function call and empty text. -/
def partEmptyText : Part := { function_call := none, text := "" }

/-- A part with no function call and non-empty text. -/
def partHello : Part := { function_call := none, text := "hello" }

/-- A model reply whose FIRST part has empty text but whose second part
carries the text "hello". -/
def hiddenTextContent : Content := { parts := [partEmptyText, partHello] }

/-- An MCP tool function that raises. -/
def failingFn : Args → Except String JSON := fun _ => Except.error "boom"

/-- An MCP tool whose function raises on every call. -/
def failingTool : MCPTool := { fn := some failingFn }

/-- An MCP instance whose tools all raise when called. -/
def instFailing : MCPInstance := { get_tool := fun _ => Except.ok failingTool }

/-- A local (remote-proxy) executor that succeeds with a marker value. -/
def localOk : Executor := fun _ _ => Except.ok (JSON.str "from-local")

/-- An HTTP backend that always answers with an empty JSON array. -/
def httpOk : HttpRequest → Except String JSON := fun _ => Except.ok (JSON.arr [])

/-! ## Unfolding lemmas for the driver loop -/

/-- When the current reply carries no tool call in its first part, the
loop ends at once with that reply, whatever the fuel. -/
theorem driverLoop_finish (exec : Executor) (fuel : Nat) (replies : List Content)
    (current : Content) (sent : List ToolResponseMsg)
    (h : isToolCall current = none) :
    driverLoop exec fuel replies current sent = LoopOutcome.finished current sent := by
  cases fuel <;> rw [driverLoop, h]

/-- One loop iteration: execute the first part's tool call, append the one
function-response message, move to the model's next reply. -/
theorem driverLoop_step (exec : Executor) (fuel : Nat) (r : Content)
    (rest : List Content) (current : Content) (sent : List ToolResponseMsg)
    (fc : FunctionCall) (h : isToolCall current = some fc) :
    driverLoop exec (fuel + 1) (r :: rest) current sent
      = driverLoop exec fuel rest r (sent ++ [execMsg exec fc]) := by
  rw [driverLoop, h]

/-- With no fuel left and a pending tool call, the loop is still running. -/
theorem driverLoop_zero (exec : Executor) (replies : List Content)
    (current : Content) (sent : List ToolResponseMsg) (fc : FunctionCall)
    (h : isToolCall current = some fc) :
    driverLoop exec 0 replies current sent = LoopOutcome.outOfFuel sent := by
  rw [driverLoop, h]

/-- When the oracle is exhausted, sending the tool response raises: the
turn ends in a model error. -/
theorem driverLoop_noReply (exec : Executor) (fuel : Nat)
    (current : Content) (sent : List ToolResponseMsg) (fc : FunctionCall)
    (h : isToolCall current = some fc) :
    driverLoop exec (fuel + 1) [] current sent
      = LoopOutcome.modelError (sent ++ [execMsg exec fc]) := by
  rw [driverLoop, h]

/-- The loop only ever finishes on a reply whose first part carries no
function call. -/
theorem driverLoop_finished_no_toolcall (exec : Executor) :
    ∀ (fuel : Nat) (replies : List Content) (current : Content)
      (sent s : List ToolResponseMsg) (final : Content),
      driverLoop exec fuel replies current sent = LoopOutcome.finished final s →
      isToolCall final = none := by
  intro fuel
  induction fuel with
  | zero =>
    intro replies current sent s final h
    rw [driverLoop] at h
    cases hc : isToolCall current with
    | none => rw [hc] at h; cases h; exact hc
    | some fc => rw [hc] at h; cases h
  | succ n ih =>
    intro replies current sent s final h
    rw [driverLoop] at h
    cases hc : isToolCall current with
    | none => rw [hc] at h; cases h; exact hc
    | some fc =>
      rw [hc] at h
      cases replies with
      | nil => cases h
      | cons r rest => exact ih rest r (sent ++ [execMsg exec fc]) s final h

/-- A model that answers every send with yet another tool call keeps the
loop running: after `n` round-trips (one message sent per round) it is
still not finished. -/
theorem driverLoop_stall (exec : Executor) :
    ∀ (n : Nat) (sent : List ToolResponseMsg),
      driverLoop exec n (List.replicate n tcContent) tcContent sent
        = LoopOutcome.outOfFuel (sent ++ List.replicate n (execMsg exec tcFC)) := by
  intro n
  induction n with
  | zero =>
    intro sent
    rw [driverLoop_zero exec _ tcContent sent tcFC rfl]
    simp
  | succ m ih =>
    intro sent
    rw [List.replicate_succ]
    rw [driverLoop_step exec m tcContent (List.replicate m tcContent) tcContent sent tcFC rfl]
    rw [ih (sent ++ [execMsg exec tcFC])]
    simp [List.replicate_succ]

/-! ## Claims -/

/-- Claim C1: if the Tool Executor raises while executing a requested tool,
the turn is not aborted and the failure is not raised to the caller: the
next message sent to the model is the tool-response message
`{name, response: {error: <message>}}` for that tool name, and the loop
transitions back to awaiting the model's next reply. -/
theorem tool_failure_absorbed_into_conversation (exec : Executor) (fuel : Nat)
    (r : Content) (rest : List Content) (current : Content)
    (sent : List ToolResponseMsg) (fc : FunctionCall) (e : String)
    (hcall : isToolCall current = some fc)
    (hfail : exec fc.name fc.args = Except.error e) :
    execMsg exec fc
      = { name := fc.name,
          response := JSON.obj [("error", JSON.str ("Failed to execute tool: " ++ e))] }
    ∧ driverLoop exec (fuel + 1) (r :: rest) current sent
        = driverLoop exec fuel rest r (sent ++ [execMsg exec fc]) := by
  refine ⟨?_, driverLoop_step exec fuel r rest current sent fc hcall⟩
  simp [execMsg, hfail, errorPayload]

/-- Witness for C1 at a concrete failing executor and tool call. -/
theorem tool_failure_absorbed_into_conversation_witness :
    execMsg execFail tcFC
      = { name := tcFC.name,
          response := JSON.obj [("error", JSON.str ("Failed to execute tool: " ++ "boom"))] }
    ∧ driverLoop execFail (0 + 1) (textContent :: []) tcContent []
        = driverLoop execFail 0 [] textContent ([] ++ [execMsg execFail tcFC]) :=
  tool_failure_absorbed_into_conversation execFail 0 textContent [] tcContent [] tcFC
    "boom" rfl rfl

/-- Claim C2: on a successful tool execution the payload delivered to the
model inside `{name, response: <payload>}` wraps a raw list result as
`{results: <list>}` (never the bare list) and passes any non-list result
through unwrapped; exactly one such message is sent before the next model
reply. -/
theorem tool_success_payload_wrapped (exec : Executor) (fuel : Nat)
    (r : Content) (rest : List Content) (current : Content)
    (sent : List ToolResponseMsg) (fc : FunctionCall) (v : JSON)
    (hcall : isToolCall current = some fc)
    (hok : exec fc.name fc.args = Except.ok v) :
    execMsg exec fc = { name := fc.name, response := wrapListResult v }
    ∧ (∀ items : List JSON,
        wrapListResult (JSON.arr items) = JSON.obj [("results", JSON.arr items)])
    ∧ (∀ j : JSON, (∀ items : List JSON, j ≠ JSON.arr items) → wrapListResult j = j)
    ∧ driverLoop exec (fuel + 1) (r :: rest) current sent
        = driverLoop exec fuel rest r (sent ++ [execMsg exec fc]) := by
  refine ⟨by simp [execMsg, hok], fun items => rfl, ?_,
    driverLoop_step exec fuel r rest current sent fc hcall⟩
  intro j hj
  cases j with
  | arr items => exact absurd rfl (hj items)
  | _ => rfl

/-- Witness for C2 at a concrete list-returning executor. -/
theorem tool_success_payload_wrapped_witness :
    execMsg execList tcFC
      = { name := tcFC.name, response := wrapListResult (JSON.arr [JSON.str "Belt"]) }
    ∧ driverLoop execList (0 + 1) (textContent :: []) tcContent []
        = driverLoop execList 0 [] textContent ([] ++ [execMsg execList tcFC]) :=
  ⟨(tool_success_payload_wrapped execList 0 textContent [] tcContent [] tcFC
      (JSON.arr [JSON.str "Belt"]) rfl rfl).1,
   (tool_success_payload_wrapped execList 0 textContent [] tcContent [] tcFC
      (JSON.arr [JSON.str "Belt"]) rfl rfl).2.2.2⟩

/-- Counterexample to claim C3: a final reply whose FIRST part has empty
text but whose second part carries the non-empty text "hello" does
contain non-empty text content, yet the turn returns the fixed fallback
string, not that text — the code only consults `parts[0].text`
(`chat_handler.py` lines 102-108). -/
theorem final_text_ignores_later_parts :
    partHello ∈ hiddenTextContent.parts
    ∧ partHello.text = "hello"
    ∧ isToolCall hiddenTextContent = none
    ∧ run_turn execNull 1 [hiddenTextContent] = some fallbackText
    ∧ fallbackText ≠ "hello" := by
  refine ⟨?_, rfl, rfl, rfl, by decide⟩
  exact List.mem_cons_of_mem _ (List.mem_cons_self _ _)

/-- Claim C3 as amended: if the FIRST part of the model's final reply has
non-empty text, `run_turn` returns exactly that text unchanged; if the
final reply has no parts, or its first part has empty text (and no tool
call, or the loop would not have ended), `run_turn` returns the fixed
fallback string verbatim. -/
theorem final_text_from_first_part (exec : Executor) (fuel : Nat)
    (first final : Content) (rest : List Content) (sent : List ToolResponseMsg)
    (hrun : driverLoop exec fuel rest first [] = LoopOutcome.finished final sent) :
    (∀ (p : Part) (ps : List Part), final.parts = p :: ps → p.text ≠ "" →
        run_turn exec fuel (first :: rest) = some p.text)
    ∧ (final.parts = [] → run_turn exec fuel (first :: rest) = some fallbackText)
    ∧ (∀ (p : Part) (ps : List Part), final.parts = p :: ps → p.text = "" →
        run_turn exec fuel (first :: rest) = some fallbackText) := by
  refine ⟨?_, ?_, ?_⟩
  · intro p ps hp ht
    simp [run_turn, hrun, finalTextOf, hp, ht]
  · intro hp
    simp [run_turn, hrun, finalTextOf, hp]
  · intro p ps hp ht
    simp [run_turn, hrun, finalTextOf, hp, ht]

/-- Witness for the amended C3: a text reply is returned verbatim; a reply
with no parts yields the fallback. -/
theorem final_text_from_first_part_witness :
    run_turn execNull 0 (textContent :: []) = some "done"
    ∧ run_turn execNull 0 (emptyContent :: []) = some fallbackText :=
  ⟨(final_text_from_first_part execNull 0 textContent textContent [] []
      (driverLoop_finish execNull 0 [] textContent [] rfl)).1
      { function_call := none, text := "done" } [] rfl (by decide),
   (final_text_from_first_part execNull 0 emptyContent emptyContent [] []
      (driverLoop_finish execNull 0 [] emptyContent [] rfl)).2.1 rfl⟩

/-- Claim C4: any uncaught error inside the turn — the first send to the
model raising (endpoint unreachable) or a mid-loop send raising (protocol
failure, modelled by the exhausted oracle) — is converted at the outer
boundary into the single fixed generic apology string; the caller always
receives text, never an exception. -/
theorem outer_errors_become_apology (exec : Executor) (fuel : Nat) :
    run_turn exec fuel [] = some apologyText
    ∧ (∀ (first : Content) (rest : List Content) (sent : List ToolResponseMsg),
        driverLoop exec fuel rest first [] = LoopOutcome.modelError sent →
        run_turn exec fuel (first :: rest) = some apologyText) := by
  refine ⟨rfl, ?_⟩
  intro first rest sent h
  simp [run_turn, h]

/-- Witness for C4: the apology is returned both when the very first send
raises and when the send of a tool response raises mid-loop. -/
theorem outer_errors_become_apology_witness :
    run_turn execNull 1 [] = some apologyText
    ∧ run_turn execNull 1 (tcContent :: []) = some apologyText :=
  ⟨(outer_errors_become_apology execNull 1).1,
   (outer_errors_become_apology execNull 1).2 tcContent [] ([] ++ [execMsg execNull tcFC])
     (driverLoop_noReply execNull 0 tcContent [] tcFC rfl)⟩

/-- Claim C5: a boundary request with an empty prompt fails with HTTP 400
("Prompt cannot be empty.") before the driver runs — the outcome is the
same constant for every HTTP backend, fuel and model oracle, so no model
or tool call is attempted; for a non-empty prompt the entry point wraps
the driver's final answer as `{response: <text>}`. -/
theorem empty_prompt_rejected_before_model (http : HttpRequest → Except String JSON)
    (fuel : Nat) (oracle : List Content) :
    chat_with_agent http fuel oracle "" = ChatOutcome.httpError 400 "Prompt cannot be empty."
    ∧ (∀ (prompt t : String), prompt ≠ "" →
        generate_response_with_gemini none http fuel oracle = some t →
        chat_with_agent http fuel oracle prompt = ChatOutcome.chatResponse t) := by
  refine ⟨rfl, ?_⟩
  intro prompt t hp ht
  simp [chat_with_agent, hp, ht]

/-- Witness for C5 at a concrete backend, oracle and prompts. -/
theorem empty_prompt_rejected_before_model_witness :
    chat_with_agent httpOk 0 [textContent] ""
      = ChatOutcome.httpError 400 "Prompt cannot be empty."
    ∧ chat_with_agent httpOk 0 [textContent] "hi" = ChatOutcome.chatResponse "done" :=
  ⟨(empty_prompt_rejected_before_model httpOk 0 [textContent]).1,
   (empty_prompt_rejected_before_model httpOk 0 [textContent]).2 "hi" "done"
     (by decide) rfl⟩

/-- Claim C6: the tool-call loop has no iteration cap — it finishes only on
a reply whose first part is not a tool call; for every n the oracle that
keeps replying with tool calls drives n tool round-trips (one message
sent per round) without finishing, and against such a model the turn
never completes, whatever fuel it is given. -/
theorem no_iteration_cap (exec : Executor) :
    (∀ (fuel : Nat) (replies : List Content) (current : Content)
        (sent s : List ToolResponseMsg) (final : Content),
        driverLoop exec fuel replies current sent = LoopOutcome.finished final s →
        isToolCall final = none)
    ∧ (∀ n : Nat, ∃ sent : List ToolResponseMsg,
        driverLoop exec n (List.replicate n tcContent) tcContent []
          = LoopOutcome.outOfFuel sent
        ∧ sent.length = n)
    ∧ (∀ fuel : Nat, run_turn exec fuel (tcContent :: List.replicate fuel tcContent) = none) := by
  refine ⟨driverLoop_finished_no_toolcall exec, ?_, ?_⟩
  · intro n
    refine ⟨List.replicate n (execMsg exec tcFC), ?_, by simp⟩
    have h := driverLoop_stall exec n []
    simpa using h
  · intro fuel
    have h := driverLoop_stall exec fuel []
    simp [run_turn, h]

/-- Witness for C6: a concrete finished run ends on a call-free reply. -/
theorem no_iteration_cap_witness :
    isToolCall textContent = none
    ∧ run_turn execNull 0 (tcContent :: List.replicate 0 tcContent) = none :=
  ⟨(no_iteration_cap execNull).1 0 [] textContent [] [] textContent
     (driverLoop_finish execNull 0 [] textContent [] rfl),
   (no_iteration_cap execNull).2.2 0⟩

/-- Counterexample to claim C7: with the MCP strategy active
(`mcp_instance` provided), a tool whose function raises is NOT reported
as a failure — `execute_mcp_tool` catches the exception and re-executes
the same invocation with the remote-proxy (local HTTP) strategy,
returning its success (`chat_handler.py` lines 145-148). -/
theorem mcp_failure_reexecuted_by_proxy :
    instFailing.get_tool "get_products_tool" = Except.ok failingTool
    ∧ failingTool.fn = some failingFn
    ∧ failingFn [] = Except.error "boom"
    ∧ execute_mcp_tool instFailing localOk "get_products_tool" []
        = localOk "get_products_tool" []
    ∧ localOk "get_products_tool" [] = Except.ok (JSON.str "from-local") :=
  ⟨rfl, rfl, rfl, rfl, rfl⟩

/-- Claim C7 as amended: for every invocation the driver dispatches to
exactly one top-level strategy — MCP when an instance is provided,
remote-proxy otherwise — and depends only on the execute contract; but a
failure anywhere inside the MCP strategy (tool lookup raising, tool not
callable, or the tool function raising) is absorbed by falling back to
the remote-proxy strategy on the same invocation, whose result is
returned in place of the failure; only a successful MCP call is returned
directly. -/
theorem executor_strategy_dispatch (inst : MCPInstance) (localExec : Executor)
    (tool_name : String) (tool_args : Args) :
    dispatch_tool none localExec tool_name tool_args = localExec tool_name tool_args
    ∧ dispatch_tool (some inst) localExec tool_name tool_args
        = execute_mcp_tool inst localExec tool_name tool_args
    ∧ (∀ e : String, inst.get_tool tool_name = Except.error e →
        execute_mcp_tool inst localExec tool_name tool_args
          = localExec tool_name tool_args)
    ∧ (∀ tool : MCPTool, inst.get_tool tool_name = Except.ok tool → tool.fn = none →
        execute_mcp_tool inst localExec tool_name tool_args
          = localExec tool_name tool_args)
    ∧ (∀ (tool : MCPTool) (f : Args → Except String JSON) (e : String),
        inst.get_tool tool_name = Except.ok tool → tool.fn = some f →
        f tool_args = Except.error e →
        execute_mcp_tool inst localExec tool_name tool_args
          = localExec tool_name tool_args)
    ∧ (∀ (tool : MCPTool) (f : Args → Except String JSON) (v : JSON),
        inst.get_tool tool_name = Except.ok tool → tool.fn = some f →
        f tool_args = Except.ok v →
        execute_mcp_tool inst localExec tool_name tool_args = Except.ok v) := by
  refine ⟨rfl, rfl, ?_, ?_, ?_, ?_⟩
  · intro e he
    simp [execute_mcp_tool, he]
  · intro tool ht hfn
    simp [execute_mcp_tool, ht, hfn]
  · intro tool f e ht hfn hf
    simp [execute_mcp_tool, ht, hfn, hf]
  · intro tool f v ht hfn hf
    simp [execute_mcp_tool, ht, hfn, hf]

/-- Witness for the amended C7: the fallback fires at a concrete failing
MCP tool, and without an MCP instance the local strategy runs directly. -/
theorem executor_strategy_dispatch_witness :
    execute_mcp_tool instFailing localOk "get_categories_tool" []
      = localOk "get_categories_tool" []
    ∧ dispatch_tool none localOk "get_categories_tool" []
      = localOk "get_categories_tool" [] :=
  ⟨(executor_strategy_dispatch instFailing localOk "get_categories_tool" []).2.2.2.2.1
      failingTool failingFn "boom" rfl rfl rfl,
   (executor_strategy_dispatch instFailing localOk "get_categories_tool" []).1⟩

/-- Claim C8: strict request/response alternation — a reply whose first
part requests a tool call is answered with exactly one tool-result
message appended to the trace before the next model reply is consumed,
and only that first part is ever handled: the loop's behaviour is
identical whatever the remaining parts of the reply are, so there is
never more than one outstanding tool request per model reply. -/
theorem one_tool_roundtrip_per_reply (exec : Executor) (fuel : Nat) (r : Content)
    (rest : List Content) (sent : List ToolResponseMsg) (p : Part)
    (ps ps2 : List Part) (fc : FunctionCall)
    (hfc : p.function_call = some fc) :
    driverLoop exec (fuel + 1) (r :: rest) { parts := p :: ps } sent
      = driverLoop exec fuel rest r (sent ++ [execMsg exec fc])
    ∧ driverLoop exec fuel (r :: rest) { parts := p :: ps } sent
      = driverLoop exec fuel (r :: rest) { parts := p :: ps2 } sent := by
  have hc1 : isToolCall { parts := p :: ps } = some fc := hfc
  have hc2 : isToolCall { parts := p :: ps2 } = some fc := hfc
  refine ⟨driverLoop_step exec fuel r rest _ sent fc hc1, ?_⟩
  cases fuel with
  | zero =>
    rw [driverLoop_zero exec (r :: rest) _ sent fc hc1,
      driverLoop_zero exec (r :: rest) _ sent fc hc2]
  | succ m =>
    rw [driverLoop_step exec m r rest _ sent fc hc1,
      driverLoop_step exec m r rest _ sent fc hc2]

/-- Witness for C8 at a concrete reply that carries two tool-call parts:
only the first is handled. -/
theorem one_tool_roundtrip_per_reply_witness :
    driverLoop execNull (0 + 1) (textContent :: []) { parts := [tcPart] } []
      = driverLoop execNull 0 [] textContent ([] ++ [execMsg execNull tcFC])
    ∧ driverLoop execNull 0 (textContent :: []) { parts := [tcPart] } []
      = driverLoop execNull 0 (textContent :: []) { parts := [tcPart, tcPart] } [] :=
  one_tool_roundtrip_per_reply execNull 0 textContent [] [] tcPart [] [tcPart] tcFC rfl

/-- Claim C9: the remote-proxy executor's per-tool request mapping — the
hotel search passes the model's argument mapping through verbatim as the
query parameters (no coercion); the product search sends exactly one
query parameter, `searchTerm`, extracted from the arguments by that fixed
key; the category and product listings take no parameters; and an
unrecognized tool name fails with an unknown-tool error. -/
theorem local_tool_dispatch_mapping (http : HttpRequest → Except String JSON)
    (tool_args : Args) (tool_name : String) :
    execute_local_tool http "get_categories_tool" tool_args
      = http { url := base_url ++ "/categories", params := [] }
    ∧ execute_local_tool http "get_products_tool" tool_args
      = http { url := base_url ++ "/products", params := [] }
    ∧ execute_local_tool http "search_products_tool" tool_args
      = http { url := base_url ++ "/products/search",
               params := [("searchTerm", (tool_args.lookup "searchTerm").getD (JSON.str ""))] }
    ∧ execute_local_tool http "search_hotels_tool" tool_args
      = http { url := base_url ++ "/hotels/search", params := tool_args }
    ∧ (tool_name ≠ "get_categories_tool" → tool_name ≠ "get_products_tool" →
        tool_name ≠ "search_products_tool" → tool_name ≠ "search_hotels_tool" →
        execute_local_tool http tool_name tool_args
          = Except.error ("Unknown tool: " ++ tool_name)) := by
  refine ⟨rfl, rfl, rfl, rfl, ?_⟩
  intro h1 h2 h3 h4
  simp [execute_local_tool, h1, h2, h3, h4]

/-- Witness for C9: an unrecognized tool name fails with the unknown-tool
error. -/
theorem local_tool_dispatch_mapping_witness :
    execute_local_tool httpOk "made_up_tool" []
      = Except.error ("Unknown tool: " ++ "made_up_tool") :=
  (local_tool_dispatch_mapping httpOk [] "made_up_tool").2.2.2.2
    (by decide) (by decide) (by decide) (by decide)

/-- Claim C10: when the model requests `search_products_tool` without a
`searchTerm` key, the remote-proxy executor does not fail: it substitutes
the empty string and performs the product search with an empty
`searchTerm` query parameter. -/
theorem missing_search_term_defaults_to_empty (http : HttpRequest → Except String JSON)
    (tool_args : Args) (hmiss : tool_args.lookup "searchTerm" = none) :
    execute_local_tool http "search_products_tool" tool_args
      = http { url := base_url ++ "/products/search",
               params := [("searchTerm", JSON.str "")] } := by
  simp [execute_local_tool, hmiss]

/-- Witness for C10 at a concrete argument mapping lacking `searchTerm`. -/
theorem missing_search_term_defaults_to_empty_witness :
    execute_local_tool httpOk "search_products_tool" [("location", JSON.str "Hyderabad")]
      = httpOk { url := base_url ++ "/products/search",
                 params := [("searchTerm", JSON.str "")] } :=
  missing_search_term_defaults_to_empty httpOk [("location", JSON.str "Hyderabad")] rfl

end SearchLift
